import Mathlib

/-!
Verification of the trace-to-witness pipeline and the ADD/SUB constraint
gadget of the zkevm-circuits repository.

The bus-mapping side (`ExecutionTrace::build` in
`src/bus-mapping/src/exec_trace.rs`) is embedded as a pure fold over the
list of execution steps that threads the global counter exactly as the
source loop does.

The circuit side (`AddGadget` in
`src/zkevm-circuits/src/evm_circuit/op_execution/arithmetic.rs`) is
embedded shallowly over an arbitrary field `F` (the source is generic over
`F: FieldExt`, a prime field): circuit cells are represented by the field
values an assignment gives them, and a constraint polynomial is represented
by its value at that assignment, so a list of `Expression`s becomes a list
of field values parametrised by all the cell values.
-/

namespace BusMapping

/-- One decoded instruction of the trace, as far as global-counter
assignment is concerned.  The source `ExecutionStep` also carries the
memory and stack snapshots, the instruction and the program counter; none
of those is read or written by `ExecutionTrace::build`, which only calls
`set_gc` and `gen_associated_ops` on the step.  `gen_associated_ops`
(defined in the `exec_step` module) returns the number of operations it
inserted into the container; that count depends only on the step itself,
so we carry it as the field `numOps`. -/
structure ExecutionStep where
  gc : Nat
  numOps : Nat
  deriving Repr, DecidableEq

/-- The loop body of `ExecutionTrace::build`: starting from counter `gc`,
set each step's global counter to the running counter, then advance the
counter by the number of operations the step generated plus one (the
step's own tick). -/
def buildSteps : Nat → List ExecutionStep → List ExecutionStep
  | _, [] => []
  | gc, step :: rest =>
      { step with gc := gc } :: buildSteps (gc + step.numOps + 1) rest

/-- `ExecutionTrace::build`: runs the counter-assignment loop starting
from `gc = 0`.  (The container replacement performed by the source
function does not affect the steps' counters.) -/
def build (steps : List ExecutionStep) : List ExecutionStep :=
  buildSteps 0 steps

end BusMapping

namespace EvmCircuit

/-- The case tags that `AddGadget` declares (`Case` in the op_execution
module; this gadget's match arms cover exactly these three). -/
inductive Case where
  | Success
  | StackUnderflow
  | OutOfGas
  deriving Repr, DecidableEq

/-- `CaseConfig`: the declared resource budget of one case. -/
structure CaseConfig where
  tag : Case
  num_word : Nat
  num_cell : Nat
  will_resume : Bool
  deriving Repr, DecidableEq

/-- A 256-bit word of the circuit: 32 byte cells, little-endian limb
order, each cell carrying the field value assigned to it. -/
structure Word (F : Type) where
  cells : Fin 32 → F

/-- The evaluation, at one circuit assignment, of the execution-state
cells (`OpExecutionState`): current opcode and the four counters. -/
structure OpExecutionState (F : Type) where
  opcode : F
  global_counter : F
  stack_pointer : F
  program_counter : F
  gas_counter : F

/-- Values of the cells the Success case of `AddGadget` owns
(`AddSuccessAllocation`). -/
structure AddSuccessAllocation (F : Type) where
  selector : F
  swap : F
  a : Word F
  b : Word F
  c : Word F
  carry : Fin 32 → F

/-- Values of all cells of the `AddGadget` struct: the Success
allocation, the StackUnderflow case selector, and the OutOfGas pair of
(case selector, gas-available cell). -/
structure AddGadget (F : Type) where
  success : AddSuccessAllocation F
  stack_underflow : F
  out_of_gas : F × F

/-- One named constraint group (`Constraint`): a selector expression and
the polynomial expressions that must vanish when it is active, both
evaluated at the given assignment.  The `lookups` list of the source is
empty in every group this gadget returns (the bus-mapping lookups are
commented out pending support), so it is omitted here. -/
structure Constraint (F : Type) where
  name : String
  selector : F
  polys : List F

/-- `AddGadget::CASE_CONFIGS`. -/
def CASE_CONFIGS : List CaseConfig :=
  [ { tag := Case.Success, num_word := 3, num_cell := 33, will_resume := false },
    { tag := Case.StackUnderflow, num_word := 0, num_cell := 0, will_resume := true },
    { tag := Case.OutOfGas, num_word := 0, num_cell := 0, will_resume := true } ]

/-- `AddGadget::constraints`: the three constraint groups (Success,
StackUnderflow, OutOfGas), each prefixed by the shared opcode-domain
polynomial `(opcode - 1)(opcode - 3)` from `common_polys`. -/
def AddGadget.constraints {F : Type} [Field F] (g : AddGadget F)
    (op_execution_state_curr op_execution_state_next : OpExecutionState F) :
    List (Constraint F) :=
  let add : F := 1
  let sub : F := 3
  let opcode := op_execution_state_curr.opcode
  let common_polys : List F := [(opcode - add) * (opcode - sub)]
  let success :=
    let exp_256 : F := 256
    let op_execution_state_transition_constraints : List F :=
      [ op_execution_state_next.global_counter
          - (op_execution_state_curr.global_counter + 3),
        op_execution_state_next.stack_pointer
          - (op_execution_state_curr.stack_pointer + 1),
        op_execution_state_next.program_counter
          - (op_execution_state_curr.program_counter + 1),
        op_execution_state_next.gas_counter
          - (op_execution_state_curr.gas_counter + 3) ]
    let no_swap : F := 1 - g.success.swap
    let swap_constraints : List F :=
      [ g.success.swap * no_swap,
        g.success.swap * (opcode - sub),
        no_swap * (opcode - add) ]
    let add_constraints : List F :=
      ((g.success.carry 0 * exp_256 + g.success.c.cells 0)
          - (g.success.a.cells 0 + g.success.b.cells 0)) ::
        (List.finRange 31).map (fun i =>
          (g.success.carry i.succ * exp_256 + g.success.c.cells i.succ)
            - (g.success.a.cells i.succ + g.success.b.cells i.succ
                + g.success.carry i.castSucc))
    { name := "AddGadget success"
      selector := g.success.selector
      polys := common_polys ++ op_execution_state_transition_constraints
          ++ swap_constraints ++ add_constraints : Constraint F }
  let stack_underflow :=
    let zero : F := 1024
    let minus_one : F := 1023
    let stack_pointer := op_execution_state_curr.stack_pointer
    { name := "AddGadget stack underflow"
      selector := g.stack_underflow
      polys := common_polys
          ++ [(stack_pointer - zero) * (stack_pointer - minus_one)] : Constraint F }
  let out_of_gas :=
    let one : F := 1
    let two : F := 2
    let three : F := 3
    let gas_overdemand := op_execution_state_curr.gas_counter + three
        - g.out_of_gas.2
    { name := "AddGadget out of gas"
      selector := g.out_of_gas.1
      polys := common_polys
          ++ [(gas_overdemand - one) * (gas_overdemand - two)
                * (gas_overdemand - three)] : Constraint F }
  [success, stack_underflow, out_of_gas]

/-- The resumption slots handed to a case whose config sets
`will_resume`; `construct` reads its `gas_available` cell. -/
structure Resumption (F : Type) where
  gas_available : F

/-- `CaseAllocation`: the concrete slots the framework hands one case of
a gadget — the case selector cell, the allocated words and cells, and
the resumption slots when the case resumes.  (The allocating module is
outside this crate's arithmetic file; the fields are the ones
`AddGadget::construct` consumes.) -/
structure CaseAllocation (F : Type) where
  selector : F
  words : List (Word F)
  cells : List F
  resumption : Option (Resumption F)

/-- Modelled from the spec: the framework's allocator (not part of the
two source files) hands each case a `CaseAllocation` whose slot counts
match the case's `CaseConfig` — "slot counts must match the case's
CaseConfig" — and a resumption exactly when the config's `will_resume`
is set. -/
def conformsTo {F : Type} (alloc : CaseAllocation F) (config : CaseConfig) : Prop :=
  alloc.words.length = config.num_word ∧
  alloc.cells.length = config.num_cell ∧
  alloc.resumption.isSome = config.will_resume

/-- `AddGadget::construct`: binds the three case allocations to the
gadget's named fields.  The source pops the last cell of the Success
allocation as `swap`, pops the last three words as `a`, `b`, `c` (in
that order), converts the remaining cells into the 32 `carry` cells
(`try_into` demands exactly 32), and unwraps the OutOfGas resumption
for its `gas_available` cell.  Every `unwrap`/`try_into` panic is
modelled as `none`. -/
def AddGadget.construct {F : Type} (case_allocations : List (CaseAllocation F)) :
    Option (AddGadget F) :=
  match case_allocations with
  | [success, stack_underflow, out_of_gas] =>
    match success.cells.getLast?, success.words.reverse, out_of_gas.resumption with
    | some swap, a :: b :: c :: _, some resumption =>
      if h : success.cells.dropLast.length = 32 then
        some
          { success :=
              { selector := success.selector
                swap := swap
                a := a
                b := b
                c := c
                carry := fun i => success.cells.dropLast.get (Fin.cast h.symm i) }
            stack_underflow := stack_underflow.selector
            out_of_gas := (out_of_gas.selector, resumption.gas_available) }
      else none
    | _, _, _ => none
  | _ => none

/-- The circuit-side `ExecutionStep` (the one `assign` receives): an
opcode id, the case the step fell into, and the recorded value arrays
(operand `a`, operand `b`, result `c`, then the 32 carry bits), each a
32-entry byte array. -/
structure ExecutionStep where
  opcode : Nat
  tag : Case
  values : List (Fin 32 → Nat)

/-- `CoreStateInstance`: the mutable interpreter-state accumulator
threaded through `assign` (global counter, program counter, stack
pointer, gas counter). -/
structure CoreStateInstance where
  global_counter : Nat
  program_counter : Nat
  stack_pointer : Nat
  gas_counter : Nat
  deriving Repr, DecidableEq

/-- The witness values `assign_success` writes into the Success case's
cells: the swap flag as a field element, the three raw word arrays
handed to the word cells, and the 32 carry values as field elements. -/
structure SuccessWrites (F : Type) where
  swap : F
  a : Fin 32 → Nat
  b : Fin 32 → Nat
  c : Fin 32 → Nat
  carry : Fin 32 → F

/-- Outcome of one `assign` call.  `ok` carries the mutated core state
and the written witness values; `err` is the recoverable
`Result::Err` path through which a proving-backend failure would
propagate (the region writes themselves are modelled as total, so this
model never produces it); `panics` models `unimplemented!`/
`unreachable!`/out-of-bounds indexing, which abort instead of
returning. -/
inductive AssignOutcome (F : Type) where
  | ok : CoreStateInstance → SuccessWrites F → AssignOutcome F
  | err : AssignOutcome F
  | panics : AssignOutcome F

/-- `AddGadget::assign_success`: bumps the core state by the fixed
deltas (+3 global counter, +1 program counter, +1 stack pointer, +3 gas)
and writes swap (`1` exactly when the opcode is 3), the `a`, `b`, `c`
arrays `values[0..3]`, and the 32 carries from `values[3]`.  The
unchecked `values[i]` indexings are modelled by `get?`: a missing entry
is the out-of-bounds panic. -/
def AddGadget.assign_success {F : Type} [Field F]
    (execution_step : ExecutionStep) (core_state : CoreStateInstance) :
    Option (CoreStateInstance × SuccessWrites F) :=
  if h : 4 ≤ execution_step.values.length then
    some
      ({ global_counter := core_state.global_counter + 3
         program_counter := core_state.program_counter + 1
         stack_pointer := core_state.stack_pointer + 1
         gas_counter := core_state.gas_counter + 3 },
       { swap := if execution_step.opcode = 3 then 1 else 0
         a := execution_step.values.get ⟨0, by omega⟩
         b := execution_step.values.get ⟨1, by omega⟩
         c := execution_step.values.get ⟨2, by omega⟩
         carry := fun i => (execution_step.values.get ⟨3, by omega⟩ i : F) })
  else none

/-- `AddGadget::assign`: dispatches on the step's case.  Success goes
to `assign_success`; StackUnderflow and OutOfGas hit `unimplemented!`
and abort. -/
def AddGadget.assign {F : Type} [Field F]
    (execution_step : ExecutionStep) (core_state : CoreStateInstance) :
    AssignOutcome F :=
  match execution_step.tag with
  | Case.Success =>
      match AddGadget.assign_success (F := F) execution_step core_state with
      | some (core_state', writes) => AssignOutcome.ok core_state' writes
      | none => AssignOutcome.panics
  | Case.StackUnderflow => AssignOutcome.panics
  | Case.OutOfGas => AssignOutcome.panics

/-- An all-zero word, used to build concrete sample assignments. -/
def zeroWord : Word ℚ := ⟨fun _ => 0⟩

/-- A concrete sample `AddGadget` assignment over `ℚ` for evaluating
the constraint groups at an explicit input. -/
def sampleGadget : AddGadget ℚ :=
  { success :=
      { selector := 1
        swap := 0
        a := zeroWord
        b := zeroWord
        c := zeroWord
        carry := fun _ => 0 }
    stack_underflow := 0
    out_of_gas := (0, 3) }

/-- A concrete sample current execution state over `ℚ` (opcode 1 = ADD,
stack pointer 1023, gas counter 2). -/
def sampleStateCurr : OpExecutionState ℚ :=
  { opcode := 1
    global_counter := 0
    stack_pointer := 1023
    program_counter := 0
    gas_counter := 2 }

/-- A concrete sample next execution state over `ℚ`, one ADD step after
`sampleStateCurr`. -/
def sampleStateNext : OpExecutionState ℚ :=
  { opcode := 1
    global_counter := 3
    stack_pointer := 1024
    program_counter := 1
    gas_counter := 5 }

/-- A concrete Success-case execution step (the ADD test vector of the
source: a=[1,2,3,0,…], b=[4,5,6,0,…], c=[5,7,9,0,…], all carries 0). -/
def sampleStep : ExecutionStep :=
  { opcode := 1
    tag := Case.Success
    values :=
      [ fun i => if i.val = 0 then 1 else if i.val = 1 then 2 else if i.val = 2 then 3 else 0,
        fun i => if i.val = 0 then 4 else if i.val = 1 then 5 else if i.val = 2 then 6 else 0,
        fun i => if i.val = 0 then 5 else if i.val = 1 then 7 else if i.val = 2 then 9 else 0,
        fun _ => 0 ] }

/-- A concrete sample core state. -/
def sampleCoreState : CoreStateInstance :=
  { global_counter := 0
    program_counter := 0
    stack_pointer := 1023
    gas_counter := 2 }

/-- A concrete StackUnderflow-case step. -/
def sampleUnderflowStep : ExecutionStep :=
  { opcode := 1, tag := Case.StackUnderflow, values := [] }

/-- A Success-case allocation over `ℚ` matching the Success
`CaseConfig` (3 words, 33 cells, no resumption). -/
def sampleSuccessAlloc : CaseAllocation ℚ :=
  { selector := 1
    words := [zeroWord, zeroWord, zeroWord]
    cells := List.replicate 33 0
    resumption := none }

/-- A StackUnderflow-case allocation over `ℚ` matching its
`CaseConfig` (0 words, 0 cells, resumption present). -/
def sampleUnderflowAlloc : CaseAllocation ℚ :=
  { selector := 0
    words := []
    cells := []
    resumption := some ⟨0⟩ }

/-- An OutOfGas-case allocation over `ℚ` matching its `CaseConfig`
(0 words, 0 cells, resumption present), with gas-available cell 7. -/
def sampleOutOfGasAlloc : CaseAllocation ℚ :=
  { selector := 0
    words := []
    cells := []
    resumption := some ⟨7⟩ }

end EvmCircuit

namespace BusMapping

theorem buildSteps_length (gc : Nat) (steps : List ExecutionStep) :
    (buildSteps gc steps).length = steps.length := by
  induction steps generalizing gc with
  | nil => rfl
  | cons s rest ih => simp [buildSteps, ih]

theorem buildSteps_head_gc (gc : Nat) (steps : List ExecutionStep)
    (h : 0 < (buildSteps gc steps).length) :
    ((buildSteps gc steps).get ⟨0, h⟩).gc = gc := by
  cases steps with
  | nil => simp [buildSteps] at h
  | cons s rest => rfl

theorem buildSteps_adjacent (steps : List ExecutionStep) (gc : Nat)
    (i : Nat) (h : i + 1 < (buildSteps gc steps).length) :
    ((buildSteps gc steps).get ⟨i + 1, h⟩).gc
      = ((buildSteps gc steps).get ⟨i, Nat.lt_of_succ_lt h⟩).gc
        + ((buildSteps gc steps).get ⟨i, Nat.lt_of_succ_lt h⟩).numOps + 1 := by
  induction steps generalizing gc i with
  | nil => simp [buildSteps] at h
  | cons s rest ih =>
    cases i with
    | zero =>
      have h' : 0 < (buildSteps (gc + s.numOps + 1) rest).length := by
        have := h
        simp [buildSteps] at this
        simpa [buildSteps_length] using this
      have := buildSteps_head_gc (gc + s.numOps + 1) rest h'
      simpa [buildSteps] using this
    | succ j =>
      have h' : j + 1 < (buildSteps (gc + s.numOps + 1) rest).length := by
        have := h
        simpa [buildSteps] using this
      simpa [buildSteps] using ih (gc + s.numOps + 1) j h'

end BusMapping

/-- C1: for every trace produced by `ExecutionTrace::build`, the first
step's global counter is 0, and for every adjacent pair of steps the
next step's global counter equals the previous step's global counter
plus the number of operations that step generated plus one (the step's
own counter tick). -/
theorem C1_build_global_counters (steps : List BusMapping.ExecutionStep) :
    (∀ h : 0 < (BusMapping.build steps).length,
        ((BusMapping.build steps).get ⟨0, h⟩).gc = 0) ∧
    (∀ (i : Nat) (h : i + 1 < (BusMapping.build steps).length),
        ((BusMapping.build steps).get ⟨i + 1, h⟩).gc
          = ((BusMapping.build steps).get ⟨i, Nat.lt_of_succ_lt h⟩).gc
            + ((BusMapping.build steps).get ⟨i, Nat.lt_of_succ_lt h⟩).numOps
            + 1) := by
  constructor
  · intro h
    exact BusMapping.buildSteps_head_gc 0 steps h
  · intro i h
    exact BusMapping.buildSteps_adjacent steps 0 i h

/-- Witness for C1: a three-step trace whose steps generate 2, 0 and 1
operations; build assigns global counters 0, 3, 4 regardless of the
counters the input carried. -/
theorem C1_build_global_counters_witness :
    ((BusMapping.build [⟨7, 2⟩, ⟨9, 0⟩, ⟨5, 1⟩]).get ⟨0, by decide⟩).gc = 0 ∧
    ((BusMapping.build [⟨7, 2⟩, ⟨9, 0⟩, ⟨5, 1⟩]).get ⟨1 + 1, by decide⟩).gc
      = ((BusMapping.build [⟨7, 2⟩, ⟨9, 0⟩, ⟨5, 1⟩]).get
            ⟨1, Nat.lt_of_succ_lt (by decide)⟩).gc
        + ((BusMapping.build [⟨7, 2⟩, ⟨9, 0⟩, ⟨5, 1⟩]).get
            ⟨1, Nat.lt_of_succ_lt (by decide)⟩).numOps
        + 1 :=
  ⟨(C1_build_global_counters [⟨7, 2⟩, ⟨9, 0⟩, ⟨5, 1⟩]).1 (by decide),
   (C1_build_global_counters [⟨7, 2⟩, ⟨9, 0⟩, ⟨5, 1⟩]).2 1 (by decide)⟩

namespace EvmCircuit

/-- C2: for every pair of execution states, the Success constraint group
returned by `AddGadget::constraints` contains exactly the 32 carry-chain
polynomials — after the one opcode-domain, four state-transition and
three swap polynomials, exactly 32 polynomials remain: limb 0 gives
`carry[0]*256 + c[0] - (a[0] + b[0])` and each limb `1 ≤ i ≤ 31` gives
`carry[i]*256 + c[i] - (a[i] + b[i] + carry[i-1])`, over little-endian
8-bit limbs. -/
theorem C2_success_carry_chain {F : Type} [Field F] (g : AddGadget F)
    (curr next : OpExecutionState F) :
    ∃ con : Constraint F, (g.constraints curr next).get? 0 = some con ∧
      con.name = "AddGadget success" ∧
      (con.polys.drop 8).length = 32 ∧
      (con.polys.drop 8).get? 0 = some
        ((g.success.carry 0 * 256 + g.success.c.cells 0)
          - (g.success.a.cells 0 + g.success.b.cells 0)) ∧
      (∀ (i : Nat) (h1 : 1 ≤ i) (h2 : i < 32),
        (con.polys.drop 8).get? i = some
          ((g.success.carry ⟨i, h2⟩ * 256 + g.success.c.cells ⟨i, h2⟩)
            - (g.success.a.cells ⟨i, h2⟩ + g.success.b.cells ⟨i, h2⟩
                + g.success.carry
                    ⟨i - 1, Nat.lt_of_le_of_lt (Nat.sub_le i 1) h2⟩))) := by
  refine ⟨_, rfl, rfl, rfl, rfl, ?_⟩
  intro i h1 h2
  interval_cases i
  all_goals rfl

end EvmCircuit

/-- Witness for C2: at a concrete gadget assignment and states over `ℚ`,
limb 5's carry-chain polynomial of the Success group is exactly
`carry[5]*256 + c[5] - (a[5] + b[5] + carry[4])`. -/
theorem C2_success_carry_chain_witness :
    ∃ con : EvmCircuit.Constraint ℚ,
      (EvmCircuit.sampleGadget.constraints EvmCircuit.sampleStateCurr
          EvmCircuit.sampleStateNext).get? 0 = some con ∧
      (con.polys.drop 8).get? 5 = some
        ((EvmCircuit.sampleGadget.success.carry ⟨5, by decide⟩ * 256
            + EvmCircuit.sampleGadget.success.c.cells ⟨5, by decide⟩)
          - (EvmCircuit.sampleGadget.success.a.cells ⟨5, by decide⟩
              + EvmCircuit.sampleGadget.success.b.cells ⟨5, by decide⟩
              + EvmCircuit.sampleGadget.success.carry ⟨4, by decide⟩)) := by
  obtain ⟨con, hcon, _, _, _, hi⟩ :=
    EvmCircuit.C2_success_carry_chain EvmCircuit.sampleGadget
      EvmCircuit.sampleStateCurr EvmCircuit.sampleStateNext
  exact ⟨con, hcon, hi 5 (by decide) (by decide)⟩

namespace EvmCircuit

theorem assign_success_of_le {F : Type} [Field F] (op : Nat) (tag : Case)
    (vals : List (Fin 32 → Nat)) (cs : CoreStateInstance)
    (hlen : 4 ≤ vals.length) :
    AddGadget.assign_success (F := F) ⟨op, tag, vals⟩ cs =
      some
        ({ global_counter := cs.global_counter + 3
           program_counter := cs.program_counter + 1
           stack_pointer := cs.stack_pointer + 1
           gas_counter := cs.gas_counter + 3 },
         { swap := if op = 3 then 1 else 0
           a := vals.get ⟨0, by omega⟩
           b := vals.get ⟨1, by omega⟩
           c := vals.get ⟨2, by omega⟩
           carry := fun i => (vals.get ⟨3, by omega⟩ i : F) }) := by
  unfold AddGadget.assign_success
  rw [dif_pos hlen]

theorem assign_success_of_lt {F : Type} [Field F] (op : Nat) (tag : Case)
    (vals : List (Fin 32 → Nat)) (cs : CoreStateInstance)
    (hlen : ¬ 4 ≤ vals.length) :
    AddGadget.assign_success (F := F) ⟨op, tag, vals⟩ cs = none := by
  unfold AddGadget.assign_success
  rw [dif_neg hlen]

/-- C3: the Success constraint group contains, right after the shared
opcode-domain polynomial, exactly the four state-transition polynomials
(global counter +3, stack pointer +1, program counter +1, gas counter
+3), and `assign` on a Success step mutates the core state by exactly
those four increments. -/
theorem C3_success_state_transition {F : Type} [Field F] (g : AddGadget F)
    (curr next : OpExecutionState F) :
    (∃ con : Constraint F, (g.constraints curr next).get? 0 = some con ∧
      (con.polys.drop 1).take 4 =
        [ next.global_counter - (curr.global_counter + 3),
          next.stack_pointer - (curr.stack_pointer + 1),
          next.program_counter - (curr.program_counter + 1),
          next.gas_counter - (curr.gas_counter + 3) ]) ∧
    (∀ (step : ExecutionStep) (cs cs' : CoreStateInstance)
        (w : SuccessWrites F),
      step.tag = Case.Success →
      AddGadget.assign (F := F) step cs = AssignOutcome.ok cs' w →
      cs' = { global_counter := cs.global_counter + 3,
              program_counter := cs.program_counter + 1,
              stack_pointer := cs.stack_pointer + 1,
              gas_counter := cs.gas_counter + 3 }) := by
  refine ⟨⟨_, rfl, rfl⟩, ?_⟩
  intro step cs cs' w htag hassign
  obtain ⟨op, tag, vals⟩ := step
  cases htag
  by_cases hlen : 4 ≤ vals.length
  · rw [show AddGadget.assign (F := F) ⟨op, Case.Success, vals⟩ cs =
        match AddGadget.assign_success (F := F) ⟨op, Case.Success, vals⟩ cs with
        | some (core_state', writes) => AssignOutcome.ok core_state' writes
        | none => AssignOutcome.panics from rfl,
      assign_success_of_le op Case.Success vals cs hlen] at hassign
    injection hassign with h1 h2
    exact h1.symm
  · rw [show AddGadget.assign (F := F) ⟨op, Case.Success, vals⟩ cs =
        match AddGadget.assign_success (F := F) ⟨op, Case.Success, vals⟩ cs with
        | some (core_state', writes) => AssignOutcome.ok core_state' writes
        | none => AssignOutcome.panics from rfl,
      assign_success_of_lt op Case.Success vals cs hlen] at hassign
    exact absurd hassign (by simp)

end EvmCircuit

namespace EvmCircuit

/-- C4: the OutOfGas entry of `CASE_CONFIGS` declares 0 words, 0 cells
and `will_resume`; on allocations whose slot counts match the three
`CASE_CONFIGS` entries, `construct` succeeds and binds, for the
OutOfGas case, exactly the case selector plus the gas-available cell
supplied by the resumption that `will_resume` provides. -/
theorem C4_out_of_gas_budget {F : Type}
    (s su og : CaseAllocation F)
    (hs : conformsTo s (CASE_CONFIGS.get ⟨0, by decide⟩))
    (hsu : conformsTo su (CASE_CONFIGS.get ⟨1, by decide⟩))
    (hog : conformsTo og (CASE_CONFIGS.get ⟨2, by decide⟩)) :
    CASE_CONFIGS.get? 2 = some
      { tag := Case.OutOfGas, num_word := 0, num_cell := 0,
        will_resume := true } ∧
    ∃ (gadget : AddGadget F) (r : Resumption F),
      AddGadget.construct [s, su, og] = some gadget ∧
      og.resumption = some r ∧
      gadget.out_of_gas = (og.selector, r.gas_available) := by
  obtain ⟨hsw, hsc, -⟩ := hs
  obtain ⟨-, -, hogr⟩ := hog
  obtain ⟨Wa, Wb, Wc, hwords⟩ := List.length_eq_three.mp hsw
  obtain ⟨r, hr⟩ := Option.isSome_iff_exists.mp hogr
  have hne : s.cells ≠ [] := by
    intro hnil
    rw [hnil] at hsc
    simp [CASE_CONFIGS] at hsc
  have hrev : s.words.reverse = [Wc, Wb, Wa] := by rw [hwords]; rfl
  have hlast : s.cells.getLast? = some (s.cells.getLast hne) :=
    List.getLast?_eq_getLast_of_ne_nil hne
  have hdrop : s.cells.dropLast.length = 32 := by
    rw [List.length_dropLast, hsc]
    rfl
  refine ⟨rfl, ?_⟩
  have hcon : AddGadget.construct [s, su, og] =
      match s.cells.getLast?, s.words.reverse, og.resumption with
      | some swap, a :: b :: c :: _, some resumption =>
        if h : s.cells.dropLast.length = 32 then
          some
            { success :=
                { selector := s.selector
                  swap := swap
                  a := a
                  b := b
                  c := c
                  carry := fun i => s.cells.dropLast.get (Fin.cast h.symm i) }
              stack_underflow := su.selector
              out_of_gas := (og.selector, resumption.gas_available) }
        else none
      | _, _, _ => none := rfl
  rw [hcon, hlast, hrev, hr]
  show ∃ (gadget : AddGadget F) (r' : Resumption F),
      (if h : s.cells.dropLast.length = 32 then
        some
          { success :=
              { selector := s.selector
                swap := s.cells.getLast hne
                a := Wc
                b := Wb
                c := Wa
                carry := fun i => s.cells.dropLast.get (Fin.cast h.symm i) }
            stack_underflow := su.selector
            out_of_gas := (og.selector, r.gas_available) : AddGadget F }
      else none) = some gadget ∧
      some r = some r' ∧
      gadget.out_of_gas = (og.selector, r'.gas_available)
  rw [dif_pos hdrop]
  exact ⟨_, r, rfl, rfl, rfl⟩

/-- Witness for C4: concrete conforming allocations over `ℚ`; construct
succeeds and the OutOfGas pair is the selector plus the resumption's
gas-available cell. -/
theorem C4_out_of_gas_budget_witness :
    ∃ (gadget : AddGadget ℚ) (r : Resumption ℚ),
      AddGadget.construct
          [sampleSuccessAlloc, sampleUnderflowAlloc, sampleOutOfGasAlloc]
        = some gadget ∧
      sampleOutOfGasAlloc.resumption = some r ∧
      gadget.out_of_gas = (sampleOutOfGasAlloc.selector, r.gas_available) :=
  (C4_out_of_gas_budget sampleSuccessAlloc sampleUnderflowAlloc
      sampleOutOfGasAlloc ⟨rfl, rfl, rfl⟩ ⟨rfl, rfl, rfl⟩ ⟨rfl, rfl, rfl⟩).2

end EvmCircuit

namespace EvmCircuit

theorem assign_success_case {F : Type} [Field F] (op : Nat)
    (vals : List (Fin 32 → Nat)) (cs : CoreStateInstance) :
    AddGadget.assign (F := F) ⟨op, Case.Success, vals⟩ cs =
      match AddGadget.assign_success (F := F) ⟨op, Case.Success, vals⟩ cs with
      | some (core_state', writes) => AssignOutcome.ok core_state' writes
      | none => AssignOutcome.panics := rfl

theorem stack_underflow_con {F : Type} [Field F] (g : AddGadget F)
    (curr next : OpExecutionState F) :
    (g.constraints curr next).get? 1 = some
      { name := "AddGadget stack underflow"
        selector := g.stack_underflow
        polys := [ (curr.opcode - 1) * (curr.opcode - 3),
                   (curr.stack_pointer - 1024)
                     * (curr.stack_pointer - 1023) ] } := rfl

theorem out_of_gas_con {F : Type} [Field F] (g : AddGadget F)
    (curr next : OpExecutionState F) :
    (g.constraints curr next).get? 2 = some
      { name := "AddGadget out of gas"
        selector := g.out_of_gas.1
        polys := [ (curr.opcode - 1) * (curr.opcode - 3),
                   (curr.gas_counter + 3 - g.out_of_gas.2 - 1)
                     * (curr.gas_counter + 3 - g.out_of_gas.2 - 2)
                     * (curr.gas_counter + 3 - g.out_of_gas.2 - 3) ] } := rfl

/-- C5: the StackUnderflow constraint group's polynomials beyond the
shared opcode-domain polynomial vanish exactly when the current stack
pointer is 1023 or 1024; in particular a stack pointer of 1000 is
rejected. -/
theorem C5_stack_underflow_constraints {F : Type} [Field F]
    (h23 : (23 : F) ≠ 0) (h24 : (24 : F) ≠ 0)
    (g : AddGadget F) (curr next : OpExecutionState F) :
    ∃ con : Constraint F, (g.constraints curr next).get? 1 = some con ∧
      ((∀ p ∈ con.polys.drop 1, p = 0) ↔
        (curr.stack_pointer = 1023 ∨ curr.stack_pointer = 1024)) ∧
      (curr.stack_pointer = 1000 →
        ¬ (∀ p ∈ con.polys.drop 1, p = 0)) := by
  refine ⟨_, stack_underflow_con g curr next, ?_, ?_⟩
  · show (∀ p ∈ [(curr.stack_pointer - 1024) * (curr.stack_pointer - 1023)],
        p = 0) ↔ _
    simp only [List.mem_singleton, forall_eq]
    rw [mul_eq_zero, sub_eq_zero, sub_eq_zero, or_comm]
  · intro hsp hall
    have h := hall ((curr.stack_pointer - 1024) * (curr.stack_pointer - 1023))
      (by simp)
    rw [mul_eq_zero, sub_eq_zero, sub_eq_zero, hsp] at h
    rcases h with h | h
    · exact h24 (by linear_combination -h)
    · exact h23 (by linear_combination -h)

/-- Witness for C5: at stack pointer 1023 over `ℚ`, the StackUnderflow
polynomials beyond the opcode-domain one all vanish. -/
theorem C5_stack_underflow_constraints_witness :
    ∃ con : Constraint ℚ,
      (sampleGadget.constraints sampleStateCurr sampleStateNext).get? 1
        = some con ∧
      (∀ p ∈ con.polys.drop 1, p = 0) := by
  obtain ⟨con, hcon, hiff, -⟩ :=
    C5_stack_underflow_constraints (F := ℚ) (by norm_num) (by norm_num)
      sampleGadget sampleStateCurr sampleStateNext
  exact ⟨con, hcon, hiff.mpr (Or.inl rfl)⟩

/-- C6: the OutOfGas constraint group's polynomials beyond the shared
opcode-domain polynomial vanish exactly when the gas shortfall
`gas_counter + 3 - gas_available` is 1, 2 or 3; in particular
shortfalls 0 and 4 are rejected. -/
theorem C6_out_of_gas_constraints {F : Type} [Field F]
    (h2 : (2 : F) ≠ 0) (h3 : (3 : F) ≠ 0)
    (g : AddGadget F) (curr next : OpExecutionState F) :
    ∃ con : Constraint F, (g.constraints curr next).get? 2 = some con ∧
      ((∀ p ∈ con.polys.drop 1, p = 0) ↔
        (curr.gas_counter + 3 - g.out_of_gas.2 = 1 ∨
         curr.gas_counter + 3 - g.out_of_gas.2 = 2 ∨
         curr.gas_counter + 3 - g.out_of_gas.2 = 3)) ∧
      (curr.gas_counter + 3 - g.out_of_gas.2 = 0 →
        ¬ (∀ p ∈ con.polys.drop 1, p = 0)) ∧
      (curr.gas_counter + 3 - g.out_of_gas.2 = 4 →
        ¬ (∀ p ∈ con.polys.drop 1, p = 0)) := by
  have hiff : (∀ p ∈ [ (curr.gas_counter + 3 - g.out_of_gas.2 - 1)
        * (curr.gas_counter + 3 - g.out_of_gas.2 - 2)
        * (curr.gas_counter + 3 - g.out_of_gas.2 - 3) ], p = 0) ↔
      (curr.gas_counter + 3 - g.out_of_gas.2 = 1 ∨
       curr.gas_counter + 3 - g.out_of_gas.2 = 2 ∨
       curr.gas_counter + 3 - g.out_of_gas.2 = 3) := by
    simp only [List.mem_singleton, forall_eq]
    rw [mul_eq_zero, mul_eq_zero, sub_eq_zero, sub_eq_zero, sub_eq_zero,
      or_assoc]
  refine ⟨_, out_of_gas_con g curr next, hiff, ?_, ?_⟩
  · intro hd hall
    rcases hiff.mp hall with h | h | h
    · rw [hd] at h
      exact one_ne_zero (α := F) (by linear_combination -h)
    · rw [hd] at h
      exact h2 (by linear_combination -h)
    · rw [hd] at h
      exact h3 (by linear_combination -h)
  · intro hd hall
    rcases hiff.mp hall with h | h | h
    · rw [hd] at h
      exact h3 (by linear_combination h)
    · rw [hd] at h
      exact h2 (by linear_combination h)
    · rw [hd] at h
      exact one_ne_zero (α := F) (by linear_combination h)

/-- Witness for C6: with gas counter 2 and gas available 3 over `ℚ`
(shortfall 2), the OutOfGas polynomials beyond the opcode-domain one
all vanish. -/
theorem C6_out_of_gas_constraints_witness :
    ∃ con : Constraint ℚ,
      (sampleGadget.constraints sampleStateCurr sampleStateNext).get? 2
        = some con ∧
      (∀ p ∈ con.polys.drop 1, p = 0) := by
  obtain ⟨con, hcon, hiff, -, -⟩ :=
    C6_out_of_gas_constraints (F := ℚ) (by norm_num) (by norm_num)
      sampleGadget sampleStateCurr sampleStateNext
  refine ⟨con, hcon, hiff.mpr (Or.inr (Or.inl ?_))⟩
  norm_num [sampleStateCurr, sampleGadget]

end EvmCircuit

namespace EvmCircuit

/-- C7: the Success group's swap polynomials (the three after the
opcode-domain and state-transition polynomials) hold exactly when swap
is boolean, swap = 1 implies opcode = 3 (SUB) and swap = 0 implies
opcode = 1 (ADD); and `assign` on a Success step writes swap = 1
exactly when the step's opcode is 3, and swap = 0 otherwise. -/
theorem C7_swap_constraints {F : Type} [Field F] (g : AddGadget F)
    (curr next : OpExecutionState F) :
    (∃ con : Constraint F, (g.constraints curr next).get? 0 = some con ∧
      (con.polys.drop 5).take 3 =
        [ g.success.swap * (1 - g.success.swap),
          g.success.swap * (curr.opcode - 3),
          (1 - g.success.swap) * (curr.opcode - 1) ] ∧
      ((∀ p ∈ (con.polys.drop 5).take 3, p = 0) ↔
        ((g.success.swap = 0 ∨ g.success.swap = 1) ∧
         (g.success.swap = 1 → curr.opcode = 3) ∧
         (g.success.swap = 0 → curr.opcode = 1)))) ∧
    (∀ (step : ExecutionStep) (cs cs' : CoreStateInstance)
        (w : SuccessWrites F),
      step.tag = Case.Success →
      AddGadget.assign (F := F) step cs = AssignOutcome.ok cs' w →
      w.swap = if step.opcode = 3 then (1 : F) else 0) := by
  constructor
  · refine ⟨_, rfl, rfl, ?_⟩
    show (∀ p ∈ [ g.success.swap * (1 - g.success.swap),
        g.success.swap * (curr.opcode - 3),
        (1 - g.success.swap) * (curr.opcode - 1) ], p = 0) ↔ _
    simp only [List.mem_cons, forall_eq_or_imp, List.mem_singleton, forall_eq,
      List.not_mem_nil, false_implies, implies_true, and_true]
    constructor
    · rintro ⟨hb, h13, h01⟩
      have hbool : g.success.swap = 0 ∨ g.success.swap = 1 := by
        rcases mul_eq_zero.mp hb with h | h
        · exact Or.inl h
        · exact Or.inr (sub_eq_zero.mp h).symm
      refine ⟨hbool, ?_, ?_⟩
      · intro h1
        rcases mul_eq_zero.mp h13 with h | h
        · rw [h1] at h
          exact absurd h one_ne_zero
        · exact sub_eq_zero.mp h
      · intro h0
        rcases mul_eq_zero.mp h01 with h | h
        · rw [h0, sub_zero] at h
          exact absurd h one_ne_zero
        · exact sub_eq_zero.mp h
    · rintro ⟨hbool, h13, h01⟩
      rcases hbool with h0 | h1
      · rw [h0, h01 h0]
        refine ⟨by ring, by ring, by ring⟩
      · rw [h1, h13 h1]
        refine ⟨by ring, by ring, by ring⟩
  · intro step cs cs' w htag hassign
    obtain ⟨op, tag, vals⟩ := step
    cases htag
    by_cases hlen : 4 ≤ vals.length
    · rw [assign_success_case,
        assign_success_of_le op Case.Success vals cs hlen] at hassign
      injection hassign with h1 h2
      rw [← h2]
    · rw [assign_success_case,
        assign_success_of_lt op Case.Success vals cs hlen] at hassign
      exact absurd hassign (by simp)

/-- C8: `assign` on a StackUnderflow or OutOfGas step never returns a
normal value — it aborts (the `unimplemented!` panic), so it is neither
the `ok` path nor the recoverable backend-error path. -/
theorem C8_assign_unimplemented {F : Type} [Field F]
    (step : ExecutionStep) (cs : CoreStateInstance)
    (h : step.tag = Case.StackUnderflow ∨ step.tag = Case.OutOfGas) :
    AddGadget.assign (F := F) step cs = AssignOutcome.panics ∧
    (∀ (cs' : CoreStateInstance) (w : SuccessWrites F),
      AddGadget.assign (F := F) step cs ≠ AssignOutcome.ok cs' w) ∧
    AddGadget.assign (F := F) step cs ≠ AssignOutcome.err := by
  obtain ⟨op, tag, vals⟩ := step
  rcases h with h | h <;> cases h
  · exact ⟨rfl, fun cs' w hk => by simp [AddGadget.assign] at hk,
      fun hk => by simp [AddGadget.assign] at hk⟩
  · exact ⟨rfl, fun cs' w hk => by simp [AddGadget.assign] at hk,
      fun hk => by simp [AddGadget.assign] at hk⟩

/-- Witness for C8: on a concrete StackUnderflow step, `assign` aborts. -/
theorem C8_assign_unimplemented_witness :
    AddGadget.assign (F := ℚ) sampleUnderflowStep sampleCoreState
      = AssignOutcome.panics :=
  (C8_assign_unimplemented sampleUnderflowStep sampleCoreState
    (Or.inl rfl)).1

/-- C9: every one of the three constraint groups of
`AddGadget::constraints` contains the opcode-domain polynomial
`(opcode - 1)(opcode - 3)`, so no case of this gadget can accept an
opcode other than ADD (1) or SUB (3). -/
theorem C9_opcode_domain {F : Type} [Field F] (g : AddGadget F)
    (curr next : OpExecutionState F) :
    (∀ con ∈ g.constraints curr next,
      (curr.opcode - 1) * (curr.opcode - 3) ∈ con.polys) ∧
    (∀ con ∈ g.constraints curr next,
      (∀ p ∈ con.polys, p = 0) →
        curr.opcode = 1 ∨ curr.opcode = 3) := by
  have hmem : ∀ con ∈ g.constraints curr next,
      (curr.opcode - 1) * (curr.opcode - 3) ∈ con.polys := by
    intro con hcon
    rcases List.mem_cons.mp hcon with h | hcon
    · subst h; simp [AddGadget.constraints]
    rcases List.mem_cons.mp hcon with h | hcon
    · subst h; simp [AddGadget.constraints]
    rcases List.mem_cons.mp hcon with h | hcon
    · subst h; simp [AddGadget.constraints]
    · exact absurd hcon (List.not_mem_nil _)
  refine ⟨hmem, ?_⟩
  intro con hcon hall
  have h := hall _ (hmem con hcon)
  rcases mul_eq_zero.mp h with h | h
  · exact Or.inl (sub_eq_zero.mp h)
  · exact Or.inr (sub_eq_zero.mp h)

/-- Witness for C9: at a concrete gadget and states over `ℚ`, the
StackUnderflow group contains the opcode-domain polynomial. -/
theorem C9_opcode_domain_witness :
    (sampleStateCurr.opcode - 1) * (sampleStateCurr.opcode - 3) ∈
      ((sampleGadget.constraints sampleStateCurr sampleStateNext).get
        ⟨1, by simp [AddGadget.constraints]⟩).polys :=
  (C9_opcode_domain sampleGadget sampleStateCurr sampleStateNext).1 _
    (List.get_mem _ _ _)

/-- C10: `assign` on a Success-case step indexes `values[0..=3]`
unchecked, so it completes without aborting precisely when the step's
values list has at least 4 entries. -/
theorem C10_assign_values_length {F : Type} [Field F]
    (step : ExecutionStep) (cs : CoreStateInstance)
    (htag : step.tag = Case.Success) :
    AddGadget.assign (F := F) step cs ≠ AssignOutcome.panics ↔
      4 ≤ step.values.length := by
  obtain ⟨op, tag, vals⟩ := step
  cases htag
  rw [assign_success_case]
  by_cases hlen : 4 ≤ vals.length
  · rw [assign_success_of_le op Case.Success vals cs hlen]
    simpa using hlen
  · rw [assign_success_of_lt op Case.Success vals cs hlen]
    simpa using hlen

/-- Witness for C10: the concrete ADD step above has 4 value arrays, so
its Success assignment does not abort; and computing assign on it does
return the ok outcome. -/
theorem C10_assign_values_length_witness :
    AddGadget.assign (F := ℚ) sampleStep sampleCoreState
      ≠ AssignOutcome.panics :=
  (C10_assign_values_length sampleStep sampleCoreState rfl).mpr
    (by simp [sampleStep])

/-- Witness for C3: on the concrete ADD step, `assign` returns ok and
the core state advances by exactly (+3, +1, +1, +3). -/
theorem C3_success_state_transition_witness :
    ∃ (cs' : CoreStateInstance) (w : SuccessWrites ℚ),
      AddGadget.assign (F := ℚ) sampleStep sampleCoreState
        = AssignOutcome.ok cs' w ∧
      cs' = { global_counter := sampleCoreState.global_counter + 3,
              program_counter := sampleCoreState.program_counter + 1,
              stack_pointer := sampleCoreState.stack_pointer + 1,
              gas_counter := sampleCoreState.gas_counter + 3 } := by
  refine ⟨_, _, rfl, ?_⟩
  exact (C3_success_state_transition (F := ℚ) sampleGadget sampleStateCurr
    sampleStateNext).2 sampleStep sampleCoreState _ _ rfl rfl

/-- Witness for C7: on the concrete ADD step (opcode 1), `assign`
returns ok and writes swap = 0. -/
theorem C7_swap_constraints_witness :
    ∃ (cs' : CoreStateInstance) (w : SuccessWrites ℚ),
      AddGadget.assign (F := ℚ) sampleStep sampleCoreState
        = AssignOutcome.ok cs' w ∧
      w.swap = if sampleStep.opcode = 3 then (1 : ℚ) else 0 := by
  refine ⟨_, _, rfl, ?_⟩
  exact (C7_swap_constraints (F := ℚ) sampleGadget sampleStateCurr
    sampleStateNext).2 sampleStep sampleCoreState _ _ rfl rfl

end EvmCircuit
